import Mathlib

/-!
Shallow embedding of the browser-side session/authentication module
(`frontend/js/auth.js`) of the AYUSH Terminology Bridge client.

The module manipulates two `localStorage` keys (`auth_token`, `user_info`),
the DOM (navigation-link visibility, notifications), `window.location`
(current pathname, redirect assignments) and the network (via `fetch`).
The embedding makes all of that explicit:

* `Store` is the `localStorage` slice: the bearer token string (absent or
  present) and the `user_info` entry.  A stored `user_info` string is only
  ever observed through `JSON.parse`, so it is modelled as either a valid
  JSON encoding of a profile record (`StoredProfile.validEnc`) or a string
  on which `JSON.parse` throws (`StoredProfile.invalidEnc`); an absent or
  empty stored string is `none` (the code tests `userStr ?` before parsing,
  and an empty string is falsy in JS).
* `World` carries the store, `window.location.pathname`, any assignment
  made to `window.location.href`, the notifications shown so far, and the
  visibility of the role-gated navigation links.
* Functions that can throw (JS exceptions) return `Except JsError _`.
* Network outcomes are passed in as explicit `FetchResult` / `LoginFetch`
  parameters: a network error (the promise rejects) or a response with an
  HTTP status and the relevant decoded JSON body.
-/

namespace AuthJs

/-- A decoded user profile record, as stored by `handleLogin`
(`user_id`, `name`, `role`, `abha_id` fields of `data.user_info`). -/
structure UserInfo where
  user_id : String
  name : String
  role : String
  abha_id : Option String
deriving DecidableEq

/-- The string stored under the `user_info` key, viewed through
`JSON.parse`: either a valid encoding of a profile record, or a string on
which `JSON.parse` throws a `SyntaxError`. -/
inductive StoredProfile where
  | validEnc (p : UserInfo)
  | invalidEnc
deriving DecidableEq

/-- JS exceptions relevant to this module. -/
inductive JsError where
  | syntaxError
  | authRequired
  | networkError
deriving DecidableEq

/-- The `localStorage` slice used by the module: the `auth_token` and
`user_info` keys (`none` = key absent). -/
structure Store where
  auth_token : Option String
  user_info : Option StoredProfile
deriving DecidableEq

/-- JS truthiness of a string-or-null value (`null` and `""` are falsy). -/
def truthyStr : Option String → Bool
  | none => false
  | some s => s != ""

/-- Whether the character list starting at the head of the second list has
the first list as an initial segment. -/
def startsWithL : List Char → List Char → Bool
  | [], _ => true
  | _ :: _, [] => false
  | a :: as, b :: bs => a == b && startsWithL as bs

/-- Whether the second character list occurs contiguously in the first
argument list. -/
def containsSubL (need : List Char) : List Char → Bool
  | [] => startsWithL need []
  | c :: rest => startsWithL need (c :: rest) || containsSubL need rest

/-- JS `String.prototype.includes`: substring test. -/
def strIncludes (s pat : String) : Bool :=
  containsSubL pat.data s.data

-- ============= TOKEN MANAGEMENT =============

/-- `getAuthToken`: `localStorage.getItem('auth_token')`. -/
def getAuthToken (s : Store) : Option String :=
  s.auth_token

/-- `setAuthToken(token)`: `localStorage.setItem('auth_token', token)`. -/
def setAuthToken (token : String) (s : Store) : Store :=
  { s with auth_token := some token }

/-- `removeAuthToken()`: `localStorage.removeItem('auth_token')`. -/
def removeAuthToken (s : Store) : Store :=
  { s with auth_token := none }

/-- `getUserInfo`: reads the `user_info` key and, when a non-empty string
is present, parses it with `JSON.parse` (which throws on an invalid
encoding; there is no try/catch in the source). -/
def getUserInfo (s : Store) : Except JsError (Option UserInfo) :=
  match s.user_info with
  | none => .ok none
  | some (.validEnc p) => .ok (some p)
  | some .invalidEnc => .error .syntaxError

/-- `setUserInfo(userInfo)`: stores the JSON encoding of the record. -/
def setUserInfo (p : UserInfo) (s : Store) : Store :=
  { s with user_info := some (.validEnc p) }

/-- `removeUserInfo()`: `localStorage.removeItem('user_info')`. -/
def removeUserInfo (s : Store) : Store :=
  { s with user_info := none }

-- ============= AUTH HEADERS =============

/-- The two headers built by `getAuthHeaders` / sent by the wrapper. -/
structure Headers where
  contentType : String
  authorization : String
deriving DecidableEq

/-- `getAuthHeaders()`: `Content-Type: application/json` plus
`Authorization: Bearer <token>` when a (truthy) token is stored, or the
empty string otherwise. -/
def getAuthHeaders (s : Store) : Headers :=
  { contentType := "application/json"
    authorization :=
      match getAuthToken s with
      | some t => if t != "" then "Bearer " ++ t else ""
      | none => "" }

-- ============= UI STATE =============

/-- The DOM state the claims depend on: visibility of the role-gated
navigation links (`#dashboard-link...`, `#audit-link...`). -/
structure UI where
  dashboardVisible : Bool
  auditVisible : Bool
deriving DecidableEq

/-- The browser-visible state around the store: `window.location.pathname`,
the latest assignment to `window.location.href` (a performed redirect),
the notifications shown so far, and the navigation-link visibility. -/
structure World where
  store : Store
  path : String
  redirect : Option String
  notices : List String
  ui : UI
deriving DecidableEq

/-- `updateUIForLoggedInUser()`: reads the profile (propagating a parse
throw); with no profile it returns at once; otherwise it shows the
dashboard links when the role is exactly `admin` or `researcher`, and the
audit links when the role is exactly `admin` or `auditor` (other
visibility is left as it was). -/
def updateUIForLoggedInUser (w : World) : Except JsError World :=
  match getUserInfo w.store with
  | .error e => .error e
  | .ok none => .ok w
  | .ok (some u) =>
    let ui1 := if u.role = "admin" ∨ u.role = "researcher"
               then { w.ui with dashboardVisible := true } else w.ui
    let ui2 := if u.role = "admin" ∨ u.role = "auditor"
               then { ui1 with auditVisible := true } else ui1
    .ok { w with ui := ui2 }

/-- `updateUIForLoggedOutUser()`: hides both navigation links. -/
def updateUIForLoggedOutUser (w : World) : World :=
  { w with ui := { dashboardVisible := false, auditVisible := false } }

-- ============= CHECK AUTH STATUS =============

/-- `checkAuthStatus()`: reads token and profile (propagating a parse
throw); when both are truthy it runs `updateUIForLoggedInUser` and returns
`true`, else it runs `updateUIForLoggedOutUser` and returns `false`. -/
def checkAuthStatus (w : World) : Except JsError (Bool × World) :=
  match getUserInfo w.store with
  | .error e => .error e
  | .ok userInfo =>
    if truthyStr (getAuthToken w.store) && userInfo.isSome then
      match updateUIForLoggedInUser w with
      | .error e => .error e
      | .ok w1 => .ok (true, w1)
    else
      .ok (false, updateUIForLoggedOutUser w)

-- ============= PROTECTED PAGE CHECK =============

/-- The page classification used by `requireAuth` and `logout`: a path is
protected when it contains `dashboard` or `audit` as a substring. -/
def isProtectedPath (path : String) : Bool :=
  strIncludes path "dashboard" || strIncludes path "audit"

/-- `requireAuth()`: computes `checkAuthStatus()`; on a protected path
with an unauthenticated user it sets `window.location.href = 'index.html'`
and returns `false`; otherwise it returns the authentication boolean. -/
def requireAuth (w : World) : Except JsError (Bool × World) :=
  match checkAuthStatus w with
  | .error e => .error e
  | .ok (isAuth, w1) =>
    if isProtectedPath w1.path && !isAuth then
      .ok (false, { w1 with redirect := some "index.html" })
    else
      .ok (isAuth, w1)

-- ============= ROLE-BASED ACCESS =============

/-- The `roleHierarchy` table lookup with the `|| 0` default: admin 4,
auditor 3, researcher 2, practitioner 1, anything else 0. -/
def roleHierarchy (role : String) : Nat :=
  if role = "admin" then 4
  else if role = "auditor" then 3
  else if role = "researcher" then 2
  else if role = "practitioner" then 1
  else 0

/-- `hasPermission(requiredRole)`: `false` with no profile (a parse throw
propagates); otherwise the user rank is compared to the required rank
with `>=`. -/
def hasPermission (s : Store) (requiredRole : String) : Except JsError Bool :=
  match getUserInfo s with
  | .error e => .error e
  | .ok none => .ok false
  | .ok (some u) =>
    .ok (decide (roleHierarchy requiredRole ≤ roleHierarchy u.role))

-- ============= API CALL WRAPPER =============

/-- The outcome of a raw `fetch`: the promise rejects (network error) or a
response arrives with an HTTP status; `body` is the `access_token` field
of the decoded JSON body when `response.json()` succeeds on it (`none`
when the body does not decode). -/
inductive FetchResult where
  | netErr
  | resp (status : Nat) (body : Option String)
deriving DecidableEq

/-- `Response.ok`: status in the range 200..299. -/
def respOk (status : Nat) : Bool :=
  decide (200 ≤ status ∧ status < 300)

/-- The caller-supplied `options.headers` entries relevant to the merge
(`none` = entry not supplied). -/
structure CallerHeaders where
  contentType : Option String
  authorization : Option String
deriving DecidableEq

/-- The JS object spread `{ ...headers, ...options.headers }`: a
caller-supplied entry overrides the computed auth header. -/
def mergeHeaders (base : Headers) (o : CallerHeaders) : Headers :=
  { contentType := o.contentType.getD base.contentType
    authorization := o.authorization.getD base.authorization }

/-- What one `authenticatedFetch(url, options)` call did: the headers the
request was issued with, the value returned to the caller (or the
exception thrown), and the world afterwards. -/
structure FetchOutcome where
  sent : Headers
  result : Except JsError FetchResult
  world : World

/-- `authenticatedFetch`: merges `getAuthHeaders()` with the caller's
`options.headers` and issues the request.  A rejected `fetch` propagates.
On status 401 it removes the token and the profile, shows the
session-expired notification, redirects to `index.html` and throws
`Error('Authentication required')`; on any other status the response is
returned with the world untouched. -/
def authenticatedFetch (opts : CallerHeaders) (res : FetchResult)
    (w : World) : FetchOutcome :=
  let headers := mergeHeaders (getAuthHeaders w.store) opts
  match res with
  | .netErr => { sent := headers, result := .error .networkError, world := w }
  | .resp status body =>
    if status = 401 then
      { sent := headers
        result := .error .authRequired
        world :=
          { w with
            store := removeUserInfo (removeAuthToken w.store)
            notices := w.notices ++ ["Session expired. Please login again."]
            redirect := some "index.html" } }
    else
      { sent := headers, result := .ok (.resp status body), world := w }

-- ============= LOGIN HANDLER =============

/-- The outcome of the login `fetch` plus `response.json()`: network
failure, a `response.ok` response carrying `access_token` and
`user_info`, or a non-ok response carrying the optional `error` field. -/
inductive LoginFetch where
  | netErr
  | success (access_token : String) (info : UserInfo)
  | failure (errMsg : Option String)
deriving DecidableEq

/-- `handleLogin(event)`: on a `response.ok` response it stores the token
and the profile record, updates the UI and shows the success
notification; on a non-ok response or a network error it only shows an
inline form error (storage untouched). -/
def handleLogin (res : LoginFetch) (w : World) : World :=
  match res with
  | .netErr => w
  | .failure _ => w
  | .success tok info =>
    let w1 := { w with store := setUserInfo info (setAuthToken tok w.store) }
    let w2 := match updateUIForLoggedInUser w1 with
              | .ok w2 => w2
              | .error _ => w1
    { w2 with notices := w2.notices ++ ["Login successful!"] }

-- ============= LOGOUT HANDLER =============

/-- `logout()`: a best-effort POST whose outcome (`res`) is ignored (a
rejection is caught and logged); the `finally` block always removes the
token and the profile, resets the UI, redirects to `index.html` when the
current path contains `dashboard` or `audit`, and shows the logged-out
notification. -/
def logout (res : FetchResult) (w : World) : World :=
  let _ := res
  let w1 := { w with store := removeUserInfo (removeAuthToken w.store) }
  let w2 := updateUIForLoggedOutUser w1
  let w3 := if isProtectedPath w2.path
            then { w2 with redirect := some "index.html" }
            else w2
  { w3 with notices := w3.notices ++ ["Logged out successfully"] }

-- ============= TOKEN REFRESH TIMER =============

/-- The `setInterval` handler (every 50 minutes): with no truthy token it
does nothing; otherwise it calls `authenticatedFetch` on
`/api/auth/refresh` (no caller headers beyond `method`), and when the
response is `ok` and its JSON body decodes it stores the new
`access_token`; every thrown error (network, 401 handling, body decode)
is caught and only logged. -/
def refreshTick (res : FetchResult) (w : World) : World :=
  if truthyStr (getAuthToken w.store) then
    let out := authenticatedFetch { contentType := none, authorization := none } res w
    match out.result with
    | .error _ => out.world
    | .ok .netErr => out.world
    | .ok (.resp status body) =>
      if respOk status then
        match body with
        | some t => { out.world with store := setAuthToken t out.world.store }
        | none => out.world
      else out.world
  else w

-- ============= FIXTURES AND HELPERS =============

/-- Sample profile from the spec's login scenario (role `practitioner`). -/
def drProfile : UserInfo :=
  { user_id := "DR001", name := "Dr. Rajesh Kumar", role := "practitioner"
    abha_id := some "12-3456-7890-1234" }

/-- Sample profile with role `auditor`. -/
def auditorProfile : UserInfo :=
  { user_id := "AUD01", name := "Ana Gupta", role := "auditor", abha_id := none }

/-- Both navigation links hidden (the logged-out projection). -/
def blankUI : UI :=
  { dashboardVisible := false, auditVisible := false }

/-- A world with an active practitioner session on the landing page. -/
def activeWorld : World :=
  { store := { auth_token := some "tok123", user_info := some (.validEnc drProfile) }
    path := "/index.html", redirect := none, notices := [], ui := blankUI }

/-- A world with an active auditor session on the landing page. -/
def auditorWorld : World :=
  { store := { auth_token := some "tok123", user_info := some (.validEnc auditorProfile) }
    path := "/index.html", redirect := none, notices := [], ui := blankUI }

/-- A world with an empty credential store on the landing page. -/
def emptyWorld : World :=
  { store := { auth_token := none, user_info := none }
    path := "/index.html", redirect := none, notices := [], ui := blankUI }

/-- Sample profile with an unknown role (`intern`, rank 0). -/
def internProfile : UserInfo :=
  { user_id := "U1", name := "U", role := "intern", abha_id := none }

/-- Builds a world from its parts; the profile entry, when present, is a
valid encoding of the given record. -/
def mkWorld (tok : Option String) (pi : Option UserInfo) (path : String)
    (red : Option String) (ns : List String) (ui : UI) : World :=
  { store := { auth_token := tok, user_info := pi.map .validEnc }
    path := path, redirect := red, notices := ns, ui := ui }

/-- The session invariant: the token and the profile entry are both
present or both absent. -/
def sessionInv (s : Store) : Bool :=
  s.auth_token.isSome == s.user_info.isSome

/-- On a store whose profile entry is not an invalid encoding,
`updateUIForLoggedInUser` succeeds and only touches the UI. -/
theorem updateUIForLoggedInUser_ok (w : World)
    (hw : w.store.user_info ≠ some StoredProfile.invalidEnc) :
    ∃ w1, updateUIForLoggedInUser w = .ok w1 ∧ w1.store = w.store ∧
      w1.path = w.path ∧ w1.redirect = w.redirect ∧ w1.notices = w.notices := by
  match h : w.store.user_info with
  | none => exact ⟨w, by simp [updateUIForLoggedInUser, getUserInfo, h], rfl, rfl, rfl, rfl⟩
  | some (.validEnc p) =>
    simp only [updateUIForLoggedInUser, getUserInfo, h]
    exact ⟨_, rfl, rfl, rfl, rfl, rfl⟩
  | some .invalidEnc => exact absurd h hw

-- ============= C1 =============

/-- C1 (counterexample): the claim says a refresh-request failure (any
non-success HTTP status or network error) never clears the Credential
Store and never redirects; but a 401 response — a non-success status —
reaches the wrapper's 401 path, which clears both keys and redirects,
before the refresh handler's catch swallows the thrown error. -/
theorem c1_refresh_counterexample :
    respOk 401 = false ∧
    truthyStr (getAuthToken activeWorld.store) = true ∧
    (refreshTick (.resp 401 none) activeWorld).store.auth_token = none ∧
    (refreshTick (.resp 401 none) activeWorld).store.user_info = none ∧
    (refreshTick (.resp 401 none) activeWorld).redirect = some "index.html" := by
  refine ⟨rfl, rfl, ?_, ?_, ?_⟩ <;> rfl

/-- C1 (amended): for a scheduled refresh running with a token present, a
network error or a non-success HTTP status other than 401 leaves the
Credential Store untouched and performs no redirect; the 401 case is
handled by the wrapper (store cleared, redirect). -/
theorem c1_refresh_soft_fail (w : World) (res : FetchResult)
    (htok : truthyStr (getAuthToken w.store) = true)
    (hfail : res = .netErr ∨
      ∃ s b, res = .resp s b ∧ respOk s = false ∧ s ≠ 401) :
    (refreshTick res w).store = w.store ∧
    (refreshTick res w).redirect = w.redirect := by
  rcases hfail with h | ⟨s, b, h, hok, h401⟩
  · subst h
    simp [refreshTick, authenticatedFetch, htok]
  · subst h
    simp [refreshTick, authenticatedFetch, htok, hok, h401]

/-- C1 (witness): a 500 response on an active session leaves the store
and location untouched. -/
theorem c1_refresh_soft_fail_witness :
    truthyStr (getAuthToken activeWorld.store) = true ∧
    (refreshTick (.resp 500 none) activeWorld).store = activeWorld.store ∧
    (refreshTick (.resp 500 none) activeWorld).redirect = activeWorld.redirect :=
  ⟨rfl, c1_refresh_soft_fail activeWorld (.resp 500 none) rfl
    (Or.inr ⟨500, none, rfl, rfl, by decide⟩)⟩

-- ============= C2 =============

/-- C2: every `authenticatedFetch` receiving status 401 clears both
credential keys, appends the session-expired notification, redirects to
the landing page and throws the authentication-required error; every
other status leaves the world unchanged and returns the response. -/
theorem c2_authenticatedFetch_401 (opts : CallerHeaders) (status : Nat)
    (body : Option String) (w : World) :
    ((authenticatedFetch opts (.resp 401 body) w).world.store.auth_token = none ∧
     (authenticatedFetch opts (.resp 401 body) w).world.store.user_info = none ∧
     (authenticatedFetch opts (.resp 401 body) w).world.notices
       = w.notices ++ ["Session expired. Please login again."] ∧
     (authenticatedFetch opts (.resp 401 body) w).world.redirect = some "index.html" ∧
     (authenticatedFetch opts (.resp 401 body) w).result = .error .authRequired) ∧
    (status ≠ 401 →
     (authenticatedFetch opts (.resp status body) w).world = w ∧
     (authenticatedFetch opts (.resp status body) w).result = .ok (.resp status body)) := by
  constructor
  · simp [authenticatedFetch, removeAuthToken, removeUserInfo]
  · intro h
    simp [authenticatedFetch, h]

/-- C2 (witness): a 200 response leaves an active session untouched and
is handed back to the caller. -/
theorem c2_authenticatedFetch_401_witness :
    (200 ≠ 401) ∧
    (authenticatedFetch { contentType := none, authorization := none }
        (.resp 200 none) activeWorld).world = activeWorld ∧
    (authenticatedFetch { contentType := none, authorization := none }
        (.resp 200 none) activeWorld).result = .ok (.resp 200 none) :=
  ⟨by decide,
   (c2_authenticatedFetch_401 { contentType := none, authorization := none }
      200 none activeWorld).2 (by decide)⟩

-- ============= C3 =============

/-- C3 (counterexample): the claim says the dashboard link is shown
exactly when the role rank is at least 2 (researcher), so an auditor
(rank 3) would see it; but the code gates the dashboard link with the
equality test `role === admin || role === researcher`, so an auditor is
not shown the dashboard link. -/
theorem c3_link_gating_counterexample :
    2 ≤ roleHierarchy "auditor" ∧
    updateUIForLoggedInUser auditorWorld
      = .ok { auditorWorld with ui := { dashboardVisible := false, auditVisible := true } } :=
  ⟨by decide, rfl⟩

/-- C3 (amended): starting from both links hidden, the logged-in UI
projection shows the dashboard link exactly when the stored role is
`admin` or `researcher` (so not for `auditor`, despite its rank 3 ≥ 2),
and shows the audit link exactly when the role is `admin` or `auditor` —
which for ranked roles coincides with rank ≥ 3. -/
theorem c3_link_gating (w : World) (p : UserInfo)
    (hp : w.store.user_info = some (.validEnc p))
    (hui : w.ui = blankUI) :
    ∃ w1, updateUIForLoggedInUser w = .ok w1 ∧
      w1.ui.dashboardVisible = (p.role == "admin" || p.role == "researcher") ∧
      w1.ui.auditVisible = (p.role == "admin" || p.role == "auditor") ∧
      (w1.ui.auditVisible = true ↔ 3 ≤ roleHierarchy p.role) := by
  simp only [updateUIForLoggedInUser, getUserInfo, hp]
  refine ⟨_, rfl, ?_, ?_, ?_⟩ <;>
    by_cases h1 : p.role = "admin" <;>
    by_cases h2 : p.role = "researcher" <;>
    by_cases h3 : p.role = "auditor" <;>
    by_cases h4 : p.role = "practitioner" <;>
      simp [h1, h2, h3, h4, hui, blankUI, roleHierarchy]

/-- C3 (witness): for an auditor starting from hidden links, the
projection yields dashboard hidden and audit shown, and the audit link
matches rank ≥ 3. -/
theorem c3_link_gating_witness :
    ∃ w1, updateUIForLoggedInUser auditorWorld = .ok w1 ∧
      w1.ui.dashboardVisible = (auditorProfile.role == "admin" || auditorProfile.role == "researcher") ∧
      w1.ui.auditVisible = (auditorProfile.role == "admin" || auditorProfile.role == "auditor") ∧
      (w1.ui.auditVisible = true ↔ 3 ≤ roleHierarchy auditorProfile.role) :=
  c3_link_gating auditorWorld auditorProfile rfl rfl

-- ============= C4 =============

/-- C4: a stored `user_info` string that is not a valid encoding makes
`getUserInfo` throw the parse error (there is no try/catch), and the
error propagates through `hasPermission`, `checkAuthStatus` and
`requireAuth` instead of being treated as "no profile". -/
theorem c4_invalid_profile_throws :
    getUserInfo { auth_token := some "tok123", user_info := some .invalidEnc }
      = .error .syntaxError ∧
    hasPermission { auth_token := some "tok123", user_info := some .invalidEnc }
      "practitioner" = .error .syntaxError ∧
    checkAuthStatus { activeWorld with
      store := { auth_token := some "tok123", user_info := some .invalidEnc } }
      = .error .syntaxError ∧
    requireAuth { activeWorld with
      store := { auth_token := some "tok123", user_info := some .invalidEnc } }
      = .error .syntaxError ∧
    updateUIForLoggedInUser { activeWorld with
      store := { auth_token := some "tok123", user_info := some .invalidEnc } }
      = .error .syntaxError :=
  ⟨rfl, rfl, rfl, rfl, rfl⟩

-- ============= C5 =============

/-- C5: with no stored profile `hasPermission` answers `false`; with a
stored profile record it answers the `>=` comparison of the hierarchy
ranks (admin 4, auditor 3, researcher 2, practitioner 1, unknown 0), so
an unknown stored role passes only against an unranked required role. -/
theorem c5_hasPermission_spec (requiredRole : String) (tok : Option String)
    (p : UserInfo) :
    roleHierarchy "admin" = 4 ∧ roleHierarchy "auditor" = 3 ∧
    roleHierarchy "researcher" = 2 ∧ roleHierarchy "practitioner" = 1 ∧
    hasPermission { auth_token := tok, user_info := none } requiredRole = .ok false ∧
    hasPermission { auth_token := tok, user_info := some (.validEnc p) } requiredRole
      = .ok (decide (roleHierarchy requiredRole ≤ roleHierarchy p.role)) ∧
    (roleHierarchy p.role = 0 →
      (hasPermission { auth_token := tok, user_info := some (.validEnc p) } requiredRole
         = .ok true
       ↔ roleHierarchy requiredRole = 0)) := by
  refine ⟨rfl, rfl, rfl, rfl, rfl, rfl, ?_⟩
  intro h0
  simp [hasPermission, getUserInfo, h0, Nat.le_zero]

/-- C5 (witness): against required role `researcher`, an absent profile
answers `false`; a stored unknown role (`intern`, rank 0) answers the
rank comparison, and its check against `researcher` fails because
`researcher` is ranked. -/
theorem c5_hasPermission_spec_witness :
    hasPermission { auth_token := some "t", user_info := none } "researcher" = .ok false ∧
    hasPermission { auth_token := some "t", user_info := some (.validEnc internProfile) } "researcher"
      = .ok (decide (roleHierarchy "researcher" ≤ roleHierarchy internProfile.role)) ∧
    (hasPermission { auth_token := some "t", user_info := some (.validEnc internProfile) } "researcher"
        = .ok true
      ↔ roleHierarchy "researcher" = 0) :=
  ⟨(c5_hasPermission_spec "researcher" (some "t") internProfile).2.2.2.2.1,
   (c5_hasPermission_spec "researcher" (some "t") internProfile).2.2.2.2.2.1,
   (c5_hasPermission_spec "researcher" (some "t") internProfile).2.2.2.2.2.2 (by decide)⟩

-- ============= C6 =============

/-- C6: `hasPermission` is monotone along the role hierarchy: for one
store, a granted check against a higher-ranked required role implies a
granted check against any lower-ranked one. -/
theorem c6_hasPermission_monotone (s : Store) (r1 r2 : String)
    (hr : roleHierarchy r2 ≤ roleHierarchy r1)
    (h1 : hasPermission s r1 = .ok true) :
    hasPermission s r2 = .ok true := by
  match h : s.user_info with
  | none => simp [hasPermission, getUserInfo, h] at h1
  | some .invalidEnc => simp [hasPermission, getUserInfo, h] at h1
  | some (.validEnc p) =>
    simp [hasPermission, getUserInfo, h] at h1 ⊢
    exact le_trans hr h1

/-- C6 (witness): an auditor session granted `auditor` is granted
`practitioner`. -/
theorem c6_hasPermission_monotone_witness :
    roleHierarchy "practitioner" ≤ roleHierarchy "auditor" ∧
    hasPermission auditorWorld.store "auditor" = .ok true ∧
    hasPermission auditorWorld.store "practitioner" = .ok true :=
  ⟨by decide, rfl,
   c6_hasPermission_monotone auditorWorld.store "auditor" "practitioner" (by decide) rfl⟩

-- ============= C7 =============

/-- C7: for a store whose profile entry is absent or parses to a record,
`requireAuth` computes the authentication status (token truthy and
profile present); on a path containing `dashboard` or `audit` with an
unauthenticated user it redirects to the landing page and returns
`false`; on every other path it performs no redirect, leaves the
location as it was, and returns the authentication boolean; the store is
never modified. -/
theorem c7_requireAuth_spec (tok : Option String) (pi : Option UserInfo)
    (path : String) (red : Option String) (ns : List String) (ui : UI) :
    ∃ w1,
      requireAuth (mkWorld tok pi path red ns ui)
        = .ok ((if isProtectedPath path && !(truthyStr tok && pi.isSome)
                then false else truthyStr tok && pi.isSome), w1) ∧
      w1.redirect = (if isProtectedPath path && !(truthyStr tok && pi.isSome)
                     then some "index.html" else red) ∧
      w1.store = (mkWorld tok pi path red ns ui).store ∧
      w1.path = path := by
  cases pi with
  | none =>
    by_cases hp : isProtectedPath path <;>
      simp [mkWorld, requireAuth, checkAuthStatus, getUserInfo, getAuthToken,
        updateUIForLoggedOutUser, hp]
  | some p =>
    by_cases ht : truthyStr tok
    · obtain ⟨w2, hup, hst, hpa, hre, hno⟩ :=
        updateUIForLoggedInUser_ok (mkWorld tok (some p) path red ns ui) (by simp [mkWorld])
      refine ⟨w2, ?_, ?_, hst, by simpa [mkWorld] using hpa⟩
      · simp [mkWorld, requireAuth, checkAuthStatus, getUserInfo, getAuthToken, ht] at hup ⊢
        rw [hup]
        simp [show w2.path = path by simpa [mkWorld] using hpa]
      · simp [ht, show w2.redirect = red by simpa [mkWorld] using hre]
    · have ht2 : truthyStr tok = false := by simpa using ht
      by_cases hp : isProtectedPath path <;>
        simp [mkWorld, requireAuth, checkAuthStatus, getUserInfo, getAuthToken,
          updateUIForLoggedOutUser, ht2, hp]

-- ============= C8 =============

/-- C8: whatever the server call's outcome (success, error status or a
rejected promise), after `logout` both credential keys are absent, and
the redirect to the landing page happens exactly when the current path
contains `dashboard` or `audit`; consequently a login followed by a
logout always leaves the store empty. -/
theorem c8_logout_clears (res : FetchResult) (w : World) (lres : LoginFetch) :
    (logout res w).store.auth_token = none ∧
    (logout res w).store.user_info = none ∧
    (logout res w).redirect
      = (if isProtectedPath w.path then some "index.html" else w.redirect) ∧
    (logout res (handleLogin lres w)).store.auth_token = none ∧
    (logout res (handleLogin lres w)).store.user_info = none := by
  have key : ∀ (r : FetchResult) (v : World),
      (logout r v).store = { auth_token := none, user_info := none } := by
    intro r v
    by_cases hp : isProtectedPath v.path <;>
      simp [logout, updateUIForLoggedOutUser, removeAuthToken, removeUserInfo, hp]
  refine ⟨by rw [key], by rw [key], ?_, by rw [key], by rw [key]⟩
  by_cases hp : isProtectedPath w.path <;>
    simp [logout, updateUIForLoggedOutUser, removeAuthToken, removeUserInfo, hp]

-- ============= C9 =============

/-- C9: the both-or-none invariant on the credential store is preserved
by a completed login attempt, by logout, by an `authenticatedFetch` call
(including its 401 handling) and by a scheduled refresh tick, whatever
the network outcomes. -/
theorem c9_session_invariant (w : World)
    (hinv : sessionInv w.store = true)
    (lres : LoginFetch) (res : FetchResult) (opts : CallerHeaders) :
    sessionInv (handleLogin lres w).store = true ∧
    sessionInv (logout res w).store = true ∧
    sessionInv ((authenticatedFetch opts res w).world).store = true ∧
    sessionInv (refreshTick res w).store = true := by
  have hfetch : ∀ (o : CallerHeaders) (r : FetchResult),
      sessionInv ((authenticatedFetch o r w).world).store = true := by
    intro o r
    match r with
    | .netErr => simpa [authenticatedFetch] using hinv
    | .resp status body =>
      by_cases h401 : status = 401
      · simp [authenticatedFetch, removeAuthToken, removeUserInfo, sessionInv, h401]
      · simpa [authenticatedFetch, h401] using hinv
  refine ⟨?_, ?_, hfetch opts res, ?_⟩
  · match lres with
    | .netErr => simpa [handleLogin] using hinv
    | .failure e => simpa [handleLogin] using hinv
    | .success tok info =>
      obtain ⟨w2, hup, hst, -, -, -⟩ := updateUIForLoggedInUser_ok
        { w with store := setUserInfo info (setAuthToken tok w.store) }
        (by simp [setUserInfo, setAuthToken])
      simp only [handleLogin]
      rw [hup]
      have hpr : ({ w2 with notices := w2.notices ++ ["Login successful!"] } : World).store
          = w2.store := rfl
      rw [hpr, hst]
      simp [sessionInv, setUserInfo, setAuthToken]
  · by_cases hp : isProtectedPath w.path <;>
      simp [logout, updateUIForLoggedOutUser, removeAuthToken, removeUserInfo,
        sessionInv, hp]
  · by_cases ht : truthyStr (getAuthToken w.store)
    · have htok : w.store.auth_token.isSome = true := by
        cases h : w.store.auth_token with
        | none => simp [getAuthToken, h, truthyStr] at ht
        | some t => rfl
      have hprof : w.store.user_info.isSome = true := by
        have h2 : w.store.auth_token.isSome = w.store.user_info.isSome := by
          simpa [sessionInv] using hinv
        rw [htok] at h2
        exact h2.symm
      match res with
      | .netErr => simpa [refreshTick, authenticatedFetch, ht] using hinv
      | .resp status body =>
        by_cases h401 : status = 401
        · simp [refreshTick, authenticatedFetch, ht, h401, removeAuthToken,
            removeUserInfo, sessionInv]
        · by_cases hok : respOk status
          · match body with
            | none => simpa [refreshTick, authenticatedFetch, ht, h401, hok] using hinv
            | some t =>
              simp [refreshTick, authenticatedFetch, ht, h401, hok, setAuthToken,
                sessionInv, hprof]
          · match body with
            | none => simpa [refreshTick, authenticatedFetch, ht, h401, hok] using hinv
            | some t => simpa [refreshTick, authenticatedFetch, ht, h401, hok] using hinv
    · have ht2 : truthyStr (getAuthToken w.store) = false := by simpa using ht
      simpa [refreshTick, ht2] using hinv

/-- C9 (witness): the invariant holds of the active sample session and
is preserved there by login, logout, the wrapper and a refresh tick. -/
theorem c9_session_invariant_witness :
    sessionInv activeWorld.store = true ∧
    (sessionInv (handleLogin .netErr activeWorld).store = true ∧
     sessionInv (logout (.resp 200 none) activeWorld).store = true ∧
     sessionInv ((authenticatedFetch { contentType := none, authorization := none }
        (.resp 200 none) activeWorld).world).store = true ∧
     sessionInv (refreshTick (.resp 200 none) activeWorld).store = true) :=
  ⟨by decide,
   c9_session_invariant activeWorld (by decide) .netErr (.resp 200 none)
     { contentType := none, authorization := none }⟩

-- ============= C10 =============

/-- C10: the caller-supplied header entries are spread after the auth
headers, so a supplied `Authorization` or `Content-Type` value replaces
the computed one; with no supplied entry the request carries
`Authorization: Bearer <token>` when a (non-empty) token is stored and
the empty string otherwise, and `Content-Type: application/json`; the
request is issued with these headers for every network outcome. -/
theorem c10_header_merge (opts : CallerHeaders) (res : FetchResult) (w : World) :
    (∀ a, opts.authorization = some a →
       (authenticatedFetch opts res w).sent.authorization = a) ∧
    (∀ c, opts.contentType = some c →
       (authenticatedFetch opts res w).sent.contentType = c) ∧
    (opts.authorization = none →
      (∀ t, w.store.auth_token = some t → t ≠ "" →
         (authenticatedFetch opts res w).sent.authorization = "Bearer " ++ t) ∧
      (w.store.auth_token = none →
         (authenticatedFetch opts res w).sent.authorization = "")) ∧
    (opts.contentType = none →
       (authenticatedFetch opts res w).sent.contentType = "application/json") := by
  have hsent : (authenticatedFetch opts res w).sent
      = mergeHeaders (getAuthHeaders w.store) opts := by
    match res with
    | .netErr => rfl
    | .resp status body =>
      by_cases h401 : status = 401 <;> simp [authenticatedFetch, h401]
  refine ⟨?_, ?_, ?_, ?_⟩
  · intro a ha
    simp [hsent, mergeHeaders, ha]
  · intro c hc
    simp [hsent, mergeHeaders, hc]
  · intro hnone
    constructor
    · intro t htok hne
      simp [hsent, mergeHeaders, hnone, getAuthHeaders, getAuthToken, htok, hne]
    · intro htok
      simp [hsent, mergeHeaders, hnone, getAuthHeaders, getAuthToken, htok]
  · intro hc
    simp [hsent, mergeHeaders, hc, getAuthHeaders]

/-- C10 (witness): with both entries supplied the caller's values win;
with none supplied the stored token yields the bearer header and the
default content type. -/
theorem c10_header_merge_witness :
    (authenticatedFetch { contentType := some "text/plain", authorization := some "custom" }
        (.resp 200 none) activeWorld).sent.authorization = "custom" ∧
    (authenticatedFetch { contentType := some "text/plain", authorization := some "custom" }
        (.resp 200 none) activeWorld).sent.contentType = "text/plain" ∧
    (authenticatedFetch { contentType := none, authorization := none }
        .netErr activeWorld).sent.authorization = "Bearer " ++ "tok123" ∧
    (authenticatedFetch { contentType := none, authorization := none }
        .netErr activeWorld).sent.contentType = "application/json" :=
  ⟨(c10_header_merge { contentType := some "text/plain", authorization := some "custom" }
      (.resp 200 none) activeWorld).1 "custom" rfl,
   (c10_header_merge { contentType := some "text/plain", authorization := some "custom" }
      (.resp 200 none) activeWorld).2.1 "text/plain" rfl,
   ((c10_header_merge { contentType := none, authorization := none }
      .netErr activeWorld).2.2.1 rfl).1 "tok123" rfl (by decide),
   (c10_header_merge { contentType := none, authorization := none }
      .netErr activeWorld).2.2.2 rfl⟩
